import Mathlib

/- Verification of the asynchronous task-submission / polling engine and the
remote-storage synchronization layer of `src/app.py` (a Streamlit app driving a
generative-image API and a Google Drive archive).

Shallow embedding notes:
* Network calls are modelled by oracle arguments of type `Except String α`:
  `Except.ok` is a completed HTTP exchange, `Except.error e` is a raised
  exception whose stringified form is `e`.
* Streamlit UI side effects that the claims mention (progress-bar updates,
  `st.error` displays) are recorded in explicit event lists.
* Python floats in the progress computation are modelled as exact rationals;
  the only arithmetic involved is `min ((attempt+1)/max_attempts) 0.95`,
  whose comparisons with 0.95 and 1.0 are exact in either representation.
* Timestamps (`datetime.now()`) are passed in as opaque strings. -/

namespace ImageApp

/-- Provider task record returned by `GET /recordInfo` and threaded through
`check_task_status` as `result["data"]`: `state` is the provider vocabulary
string, `resultJson` the optional double-encoded result payload, `failMsg`
the optional failure message (`task_data.get("failMsg", ...)`). -/
structure TaskData where
  state : String
  resultJson : Option String
  failMsg : Option String
deriving Repr, DecidableEq

/-- Return value of `poll_task_until_complete` (src/app.py lines 369-401).
The Python function returns one of three dict shapes, mirrored by the three
constructors: `success td` is `{"success": True, "data": td}`;
`failed e td` is `{"success": False, "error": e, "data": td}` where
`e = td.get("failMsg", "Unknown error")`; `timedOut` is
`{"success": False, "error": "Timeout reached"}` (no data key). -/
inductive PollOutcome where
  | success (data : TaskData)
  | failed (error : String) (data : TaskData)
  | timedOut
deriving Repr, DecidableEq

/-- Instrumented result of a poller run: the returned outcome, the number of
`check_task_status` calls made, and the sequence of fractions passed to
`progress_bar.progress(...)` in order. -/
structure PollTrace where
  outcome : PollOutcome
  calls : Nat
  progressEvents : List ℚ
deriving Repr, DecidableEq

/-- Embedding of the `for attempt in range(max_attempts)` loop of
`poll_task_until_complete` (src/app.py lines 374-397), starting at attempt
index `attempt` (0-based as in Python) with `rem` iterations left.
`check i` is the outcome of the `check_task_status` call on attempt `i`:
`Except.ok td` models `{"success": True, "data": td}` and `Except.error e`
models `{"success": False, "error": e}`.  On a successful check the loop
emits `min((attempt + 1) / max_attempts, 0.95)` to the progress bar, then
returns on state `"success"` (after emitting 1.0) or `"fail"`, and otherwise
sleeps and continues; on a failed check it only displays the error text,
sleeps and continues.  Falling off the loop returns the timeout dict. -/
def pollFrom (check : Nat → Except String TaskData) (max_attempts : Nat) :
    Nat → Nat → PollTrace
  | _, 0 => ⟨.timedOut, 0, []⟩
  | attempt, rem+1 =>
    match check attempt with
    | .ok td =>
      let p : ℚ := min (((attempt : ℚ) + 1) / (max_attempts : ℚ)) (19/20)
      if td.state = "success" then ⟨.success td, 1, [p, 1]⟩
      else if td.state = "fail" then
        ⟨.failed (td.failMsg.getD "Unknown error") td, 1, [p]⟩
      else
        let t := pollFrom check max_attempts (attempt+1) rem
        ⟨t.outcome, t.calls + 1, p :: t.progressEvents⟩
    | .error _ =>
      let t := pollFrom check max_attempts (attempt+1) rem
      ⟨t.outcome, t.calls + 1, t.progressEvents⟩

/-- Embedding of `poll_task_until_complete(api_key, task_id, max_attempts, delay)`:
initializes the progress bar with `st.progress(0)` (the leading 0 emission)
and runs the attempt loop from attempt 0.  The `api_key`/`task_id` arguments
and the fixed sleep `delay` only parametrize the network call and the waiting
time; they are absorbed into the `check` oracle. -/
def poll_task_until_complete (check : Nat → Except String TaskData)
    (max_attempts : Nat) : PollTrace :=
  let t := pollFrom check max_attempts 0 max_attempts
  ⟨t.outcome, t.calls, 0 :: t.progressEvents⟩

/-- Metadata of one file as held by the Drive provider (the fields the app
requests: id, name, webViewLink, webContentLink, createdTime, plus the
mimeType/trashed/parents attributes its queries filter on).  The app only ever
assigns a single parent, modelled as `parent`. -/
structure DriveFile where
  id : String
  name : String
  mimeType : String
  trashed : Bool
  parent : Option String
  webViewLink : Option String
  webContentLink : Option String
  createdTime : Nat
deriving Repr, DecidableEq

/-- Kinds of Google Drive / network calls the storage functions can issue;
recorded in order so the theorems can speak about which provider operations a
run performed.  `permissionsCreate` is included because the specification
mentions a permission-grant call; the source never issues one. -/
inductive ProviderCall where
  | filesList
  | filesCreateFolder
  | download
  | filesCreateUpload
  | filesListImages
  | filesDelete
  | permissionsCreate
deriving Repr, DecidableEq

/-- Predicate of the folder search query of `create_app_folder`
(src/app.py line 193): `name='AI_Image_Editor_Pro' and
mimeType='application/vnd.google-apps.folder' and trashed=false`. -/
def isAppFolderFile (f : DriveFile) : Bool :=
  f.name == "AI_Image_Editor_Pro" &&
  f.mimeType == "application/vnd.google-apps.folder" &&
  !f.trashed

/-- Provider-side evaluation of the folder search call of `create_app_folder`
(src/app.py lines 192-197): the files matching the query, truncated to
`pageSize=1`. -/
def searchAppFolder (drive : List DriveFile) : List DriveFile :=
  (drive.filter isAppFolderFile).take 1

/-- Instrumented result of `create_app_folder`-style folder resolution: the
returned folder id (`None` in Python becomes `none`), the provider calls made,
and the `st.error` messages displayed. -/
structure FolderOutcome where
  folderId : Option String
  calls : List ProviderCall
  errorsShown : List String
deriving Repr, DecidableEq

/-- Embedding of `create_app_folder` (src/app.py lines 185-219), for a state
in which `st.session_state.service` is set.  `searchResp` is the outcome of
the `files().list` search call (`Except.error` = raised exception);
`createResp` is the outcome of the `files().create` call, carrying
`folder.get('id')`.  If the search finds a file, its id is returned and no
create call is issued; otherwise a create call is issued; any exception is
caught, displayed as `Error creating folder: ...`, and `None` is returned. -/
def create_app_folder (searchResp : Except String (List DriveFile))
    (createResp : Except String (Option String)) : FolderOutcome :=
  match searchResp with
  | .error e => ⟨none, [.filesList], ["Error creating folder: " ++ e]⟩
  | .ok files =>
    match files with
    | f :: _ => ⟨some f.id, [.filesList], []⟩
    | [] =>
      match createResp with
      | .error e =>
        ⟨none, [.filesList, .filesCreateFolder], ["Error creating folder: " ++ e]⟩
      | .ok id? => ⟨id?, [.filesList, .filesCreateFolder], []⟩

/-- Evaluation of `st.session_state.gdrive_folder_id or create_app_folder()`
(src/app.py line 227 and line 278): the cached session folder id if set
(Python truthiness on a string id), else a `create_app_folder` run. -/
def resolveFolder (sessionFolderId : Option String)
    (searchResp : Except String (List DriveFile))
    (createResp : Except String (Option String)) : FolderOutcome :=
  match sessionFolderId with
  | some fid => ⟨some fid, [], []⟩
  | none => create_app_folder searchResp createResp

/-- Fields of the `files().create` response that `upload_to_gdrive` requests
(src/app.py line 252): `id, webViewLink, webContentLink`, each read with
`.get` and hence optional. -/
structure DriveCreateResponse where
  id : Option String
  webViewLink : Option String
  webContentLink : Option String
deriving Repr, DecidableEq

/-- Dict returned by a successful `upload_to_gdrive` (src/app.py lines
258-266). -/
structure UploadRecord where
  file_id : Option String
  file_name : String
  web_link : Option String
  content_link : Option String
  uploaded_at : String
  task_id : Option String
  original_url : String
deriving Repr, DecidableEq

/-- Instrumented result of an `upload_to_gdrive` run: the returned value
(`none` = Python `None`), the provider/network calls made in order, and the
`st.error` messages displayed. -/
structure UploadOutcome where
  result : Option UploadRecord
  calls : List ProviderCall
  errorsShown : List String
deriving Repr, DecidableEq

/-- Embedding of `upload_to_gdrive(image_url, file_name, task_id)`
(src/app.py lines 221-269).  `service` models whether
`st.session_state.service` is set; `downloadResp` is the outcome of
`requests.get(image_url)` followed by `raise_for_status()` (bytes on
success); `createResp` is the outcome of the single `files().create` upload
call; `now` stands for `datetime.now().isoformat()`.  The stats counter
update (line 256) is a pure in-memory increment and is elided.  Any exception
is caught by the one `except` block, displayed as
`Error uploading to Google Drive: ...`, and `None` is returned. -/
def upload_to_gdrive (service : Bool) (sessionFolderId : Option String)
    (folderSearch : Except String (List DriveFile))
    (folderCreate : Except String (Option String))
    (downloadResp : Except String (List Nat))
    (createResp : Except String DriveCreateResponse)
    (image_url file_name : String) (task_id : Option String)
    (now : String) : UploadOutcome :=
  if !service then ⟨none, [], []⟩
  else
    let fo := resolveFolder sessionFolderId folderSearch folderCreate
    match fo.folderId with
    | none => ⟨none, fo.calls, fo.errorsShown⟩
    | some _ =>
      match downloadResp with
      | .error e =>
        ⟨none, fo.calls ++ [.download],
          fo.errorsShown ++ ["Error uploading to Google Drive: " ++ e]⟩
      | .ok _ =>
        match createResp with
        | .error e =>
          ⟨none, fo.calls ++ [.download, .filesCreateUpload],
            fo.errorsShown ++ ["Error uploading to Google Drive: " ++ e]⟩
        | .ok file =>
          ⟨some { file_id := file.id, file_name := file_name,
                  web_link := file.webViewLink,
                  content_link := file.webContentLink,
                  uploaded_at := now, task_id := task_id,
                  original_url := image_url },
            fo.calls ++ [.download, .filesCreateUpload], fo.errorsShown⟩

/-- Mime types accepted by the image-listing query of `list_gdrive_images`
(src/app.py line 281). -/
def isImageMime (m : String) : Bool :=
  m == "image/png" || m == "image/jpeg" || m == "image/webp"

/-- Predicate of the image-listing query of `list_gdrive_images`
(src/app.py line 281): `'{folder_id}' in parents and trashed=false and
(mimeType='image/png' or mimeType='image/jpeg' or mimeType='image/webp')`. -/
def imageQuery (folderId : String) (f : DriveFile) : Bool :=
  f.parent == some folderId && !f.trashed && isImageMime f.mimeType

/-- Provider-side evaluation of the `files().list` image query of
`list_gdrive_images` (src/app.py lines 280-286): the matching files ordered
by `createdTime desc`, truncated to one page of `pageSize` results (no page
token is requested, so only the first page is ever returned). -/
def driveListImages (drive : List DriveFile) (folderId : String)
    (pageSize : Nat) : List DriveFile :=
  ((drive.filter (imageQuery folderId)).mergeSort
    (fun a b => b.createdTime ≤ a.createdTime)).take pageSize

/-- Instrumented result of `list_gdrive_images`: the returned file list, the
provider calls made, and the `st.error` messages displayed. -/
structure ListOutcome where
  files : List DriveFile
  calls : List ProviderCall
  errorsShown : List String
deriving Repr, DecidableEq

/-- Embedding of `list_gdrive_images(folder_id)` (src/app.py lines 271-291)
over a provider state `drive`.  The folder id is the argument if truthy, else
the session value, else a `create_app_folder` run; the resulting value is
interpolated into the query string, `None` becoming the literal text "None".
`listExn` injects a raised exception on the list call (`st.error` is shown and
`[]` returned); otherwise the call returns the provider-state evaluation of
the query with `pageSize=100`.  No further page is fetched. -/
def list_gdrive_images (service : Bool)
    (folderIdArg sessionFolderId : Option String)
    (folderSearch : Except String (List DriveFile))
    (folderCreate : Except String (Option String))
    (drive : List DriveFile) (listExn : Option String) : ListOutcome :=
  if !service then ⟨[], [], []⟩
  else
    let fo :=
      match folderIdArg with
      | some fid => (⟨some fid, [], []⟩ : FolderOutcome)
      | none => resolveFolder sessionFolderId folderSearch folderCreate
    let folderStr := fo.folderId.getD "None"
    match listExn with
    | some e =>
      ⟨[], fo.calls ++ [.filesListImages],
        fo.errorsShown ++ ["Error listing images: " ++ e]⟩
    | none =>
      ⟨driveListImages drive folderStr 100, fo.calls ++ [.filesListImages],
        fo.errorsShown⟩

/-- Instrumented result of `delete_gdrive_file`: the returned boolean, the
provider calls made, and the `st.error` messages displayed. -/
structure DeleteOutcome where
  result : Bool
  calls : List ProviderCall
  errorsShown : List String
deriving Repr, DecidableEq

/-- Embedding of `delete_gdrive_file(file_id)` (src/app.py lines 293-303).
`deleteResp` is the outcome of the single `files().delete` call; on an
exception the error is displayed as `Error deleting file: ...` and `False`
is returned. -/
def delete_gdrive_file (service : Bool)
    (deleteResp : Except String Unit) : DeleteOutcome :=
  if !service then ⟨false, [], []⟩
  else
    match deleteResp with
    | .ok _ => ⟨true, [.filesDelete], []⟩
    | .error e => ⟨false, [.filesDelete], ["Error deleting file: " ++ e]⟩

/-- Optional `data` object of the `POST /createTask` response body,
`{taskId: string}`; `taskId` is read by direct indexing in the source, so a
missing key raises. -/
structure CreateData where
  taskId : Option String
deriving Repr, DecidableEq

/-- JSON body of a `POST /createTask` response,
`{code: int, msg?: string, data?: {taskId: string}}`, with every field read
optionally (`data.get("code")`, `data.get('msg', ...)`). -/
structure ApiResponse where
  code : Option Int
  msg : Option String
  data : Option CreateData
deriving Repr, DecidableEq

/-- Transport-level outcome of the `requests.post` call inside `create_task`:
either a completed HTTP response with status, parsed JSON body and raw text,
or a raised exception (connection error, timeout, ...) whose stringified form
is `e`. -/
inductive Transport where
  | resp (status : Nat) (body : ApiResponse) (text : String)
  | exn (e : String)
deriving Repr, DecidableEq

/-- Embedding of `create_task(api_key, model, input_params, callback_url)`
(src/app.py lines 309-342).  `Except.ok tid` models
`{"success": True, "task_id": tid}` and `Except.error r` models
`{"success": False, "error": r}`.  On HTTP 200 with embedded `code == 200`,
the source reads `data["data"]["taskId"]` by direct indexing; a missing
`data` or `taskId` key raises a `KeyError` that the surrounding `except`
catches and stringifies (modelled by the fixed `KeyError: ...` texts).  The
`total_tasks` stats increment (line 335) is a pure in-memory counter and is
elided. -/
def create_task (t : Transport) : Except String String :=
  match t with
  | .exn e => .error e
  | .resp status body text =>
    if status = 200 then
      if body.code = some 200 then
        match body.data with
        | none => .error "KeyError: data"
        | some d =>
          match d.taskId with
          | none => .error "KeyError: taskId"
          | some tid => .ok tid
      else .error (body.msg.getD "Unknown error")
    else .error ("HTTP " ++ toString status ++ ": " ++ text)

/-- One entry of `st.session_state.task_history` as built by the SeedDream
handler (src/app.py lines 833-840): the record has exactly the keys
`task_id, model, timestamp, status, prompt, settings`; the presentation-only
`settings` dict is elided.  Note the record has no failure-reason field. -/
structure TaskRecord where
  task_id : String
  model : String
  timestamp : String
  status : String
  prompt : String
deriving Repr, DecidableEq

/-- Embedding of the task-history update loop
`for task in st.session_state.task_history: if task["task_id"] == task_id:
task["status"] = new; break` (src/app.py lines 860-863 and 936-939): sets the
status of the first record with the given id, leaving the rest unchanged. -/
def updateStatus : List TaskRecord → String → String → List TaskRecord
  | [], _, _ => []
  | r :: rs, tid, new =>
    if r.task_id = tid then { r with status := new } :: rs
    else r :: updateStatus rs tid new

/-- Observable outcome of the SeedDream handler code that runs after
`poll_task_until_complete` returns: the updated task history, the parsed
`result_urls` list, and the stats increments applied. -/
structure HandlerResult where
  history : List TaskRecord
  resultUrls : List String
  successfulTasksDelta : Nat
  failedTasksDelta : Nat
deriving Repr, DecidableEq

/-- Embedding of the post-poll branch of the SeedDream generation handler
(src/app.py lines 856-942).  If the poll outcome is `success`, the first
history record with this `task_id` is set to status `"success"`,
`successful_tasks` is incremented, and
`json.loads(task_data.get("resultJson", "{}")).get("resultUrls", [])` is
computed: when `resultJson` is absent the default `"{}"` is decoded and
yields `[]`; when present, the decode is modelled by the `parseUrls` oracle
(JSON decoding itself is outside the embedded fragment).  Otherwise (provider
`fail` or timeout alike) the record is set to status `"fail"`, `failed_tasks`
is incremented, the error text is only displayed via `st.error`, and no
result urls are parsed. -/
def seeddream_after_poll (hist : List TaskRecord) (task_id : String)
    (poll : PollOutcome) (parseUrls : String → List String) : HandlerResult :=
  match poll with
  | .success td =>
    { history := updateStatus hist task_id "success",
      resultUrls :=
        match td.resultJson with
        | none => []
        | some s => parseUrls s,
      successfulTasksDelta := 1, failedTasksDelta := 0 }
  | _ =>
    { history := updateStatus hist task_id "fail",
      resultUrls := [], successfulTasksDelta := 0, failedTasksDelta := 1 }

/-- Fake status client that reports `waiting` on every call. -/
def alwaysWaiting : Nat → Except String TaskData :=
  fun _ => Except.ok { state := "waiting", resultJson := none, failMsg := none }

/-- Fake status client whose every call raises. -/
def alwaysError : Nat → Except String TaskData :=
  fun _ => Except.error "boom"

theorem pollFrom_forever_waiting (check : Nat → Except String TaskData)
    (n : Nat) (hw : ∀ i, ∃ td, check i = Except.ok td ∧ td.state = "waiting") :
    ∀ rem attempt, (pollFrom check n attempt rem).outcome = PollOutcome.timedOut ∧
      (pollFrom check n attempt rem).calls = rem := by
  intro rem
  induction rem with
  | zero => intro attempt; simp [pollFrom]
  | succ r ih =>
    intro attempt
    obtain ⟨td, hck, hst⟩ := hw attempt
    simp [pollFrom, hck, hst, (ih (attempt + 1)).1, (ih (attempt + 1)).2]

theorem pollFrom_forever_error (check : Nat → Except String TaskData)
    (n : Nat) (hw : ∀ i, ∃ e, check i = Except.error e) :
    ∀ rem attempt, (pollFrom check n attempt rem).outcome = PollOutcome.timedOut ∧
      (pollFrom check n attempt rem).calls = rem ∧
      (pollFrom check n attempt rem).progressEvents = [] := by
  intro rem
  induction rem with
  | zero => intro attempt; simp [pollFrom]
  | succ r ih =>
    intro attempt
    obtain ⟨e, hck⟩ := hw attempt
    simp [pollFrom, hck, (ih (attempt + 1)).1, (ih (attempt + 1)).2.1,
      (ih (attempt + 1)).2.2]

theorem pollFrom_events_safe (check : Nat → Except String TaskData)
    (n : Nat) : ∀ rem attempt,
    (∀ q ∈ (pollFrom check n attempt rem).progressEvents.dropLast,
        q ≤ 19/20) ∧
    (∀ q ∈ (pollFrom check n attempt rem).progressEvents, q = 1 →
        ∃ td, (pollFrom check n attempt rem).outcome = PollOutcome.success td) := by
  intro rem
  induction rem with
  | zero => intro attempt; simp [pollFrom]
  | succ r ih =>
    intro attempt
    have hlt : ∀ a : ℚ, min a (19/20) ≤ 19/20 := fun a => min_le_right a _
    have hne : ∀ a : ℚ, min a (19/20) ≠ 1 := by
      intro a h
      have := hlt a
      rw [h] at this
      norm_num at this
    cases hck : check attempt with
    | ok td =>
      by_cases hs : td.state = "success"
      · constructor
        · intro q hq
          simp [pollFrom, hck, hs] at hq
          rw [hq]
          exact hlt _
        · intro q _ _
          exact ⟨td, by simp [pollFrom, hck, hs]⟩
      · by_cases hf : td.state = "fail"
        · constructor
          · intro q hq
            simp [pollFrom, hck, hs, hf] at hq
          · intro q hq hq1
            simp [pollFrom, hck, hs, hf] at hq
            exact absurd (hq ▸ hq1) (hne _)
        · have htl := ih (attempt + 1)
          constructor
          · intro q hq
            simp only [pollFrom, hck] at hq
            rw [if_neg hs, if_neg hf] at hq
            rcases hl : (pollFrom check n (attempt + 1) r).progressEvents with
              _ | ⟨b, l⟩
            · simp [hl] at hq
            · rw [hl, List.dropLast_cons₂] at hq
              rcases List.mem_cons.mp hq with hq | hq
              · rw [hq]
                exact hlt _
              · exact htl.1 q (by rw [hl]; exact hq)
          · intro q hq hq1
            simp only [pollFrom, hck] at hq ⊢
            rw [if_neg hs, if_neg hf] at hq ⊢
            rcases List.mem_cons.mp hq with hq | hq
            · exact absurd (hq ▸ hq1) (hne _)
            · exact htl.2 q hq hq1
    | error e =>
      have htl := ih (attempt + 1)
      constructor
      · intro q hq
        simp only [pollFrom, hck] at hq
        exact htl.1 q hq
      · intro q hq hq1
        simp only [pollFrom, hck] at hq ⊢
        exact htl.2 q hq hq1

/-- C3: against a status client that returns `waiting` on every call, the
poller with `max_attempts = n ≥ 1` terminates after exactly `n` status
calls with the timeout outcome, which is a different constructor from the
provider-failure outcome. -/
theorem poller_waiting_forever_times_out
    (check : Nat → Except String TaskData) (n : Nat) (hn : 1 ≤ n)
    (hw : ∀ i, ∃ td, check i = Except.ok td ∧ td.state = "waiting") :
    (poll_task_until_complete check n).outcome = PollOutcome.timedOut ∧
    (poll_task_until_complete check n).calls = n ∧
    ∀ e td, (poll_task_until_complete check n).outcome ≠ PollOutcome.failed e td := by
  have h := pollFrom_forever_waiting check n hw n 0
  refine ⟨?_, ?_, ?_⟩
  · simpa [poll_task_until_complete] using h.1
  · simpa [poll_task_until_complete] using h.2
  · intro e td hcontra
    rw [show (poll_task_until_complete check n).outcome =
      (pollFrom check n 0 n).outcome from rfl, h.1] at hcontra
    exact PollOutcome.noConfusion hcontra

/-- Witness for `poller_waiting_forever_times_out` at `n = 3` with the
constant-`waiting` client. -/
theorem poller_waiting_forever_times_out_witness :
    (poll_task_until_complete alwaysWaiting 3).outcome = PollOutcome.timedOut ∧
    (poll_task_until_complete alwaysWaiting 3).calls = 3 ∧
    ∀ e td, (poll_task_until_complete alwaysWaiting 3).outcome ≠
      PollOutcome.failed e td :=
  poller_waiting_forever_times_out alwaysWaiting 3 (by decide)
    (fun _ => ⟨{ state := "waiting", resultJson := none, failMsg := none },
      rfl, rfl⟩)

/-- C9: a status-fetch error is treated as non-terminal: the attempt is
consumed and the run continues exactly as the remaining attempts would
(same outcome, one more call, no extra progress event), so the fetch error
is never returned; in particular when every one of the `max_attempts`
fetches errors, the poller returns the timeout outcome after exactly
`max_attempts` calls. -/
theorem poller_fetch_error_is_nonterminal
    (check : Nat → Except String TaskData) (n : Nat) :
    (∀ attempt rem e, check attempt = Except.error e →
        pollFrom check n attempt (rem + 1) =
          ⟨(pollFrom check n (attempt + 1) rem).outcome,
           (pollFrom check n (attempt + 1) rem).calls + 1,
           (pollFrom check n (attempt + 1) rem).progressEvents⟩) ∧
    ((∀ i, ∃ e, check i = Except.error e) →
        (poll_task_until_complete check n).outcome = PollOutcome.timedOut ∧
        (poll_task_until_complete check n).calls = n) := by
  constructor
  · intro attempt rem e hck
    simp [pollFrom, hck]
  · intro hw
    have h := pollFrom_forever_error check n hw n 0
    exact ⟨by simpa [poll_task_until_complete] using h.1,
           by simpa [poll_task_until_complete] using h.2.1⟩

/-- Witness for `poller_fetch_error_is_nonterminal` with an all-erroring
client at `max_attempts = 2`. -/
theorem poller_fetch_error_is_nonterminal_witness :
    (poll_task_until_complete alwaysError 2).outcome = PollOutcome.timedOut ∧
    (poll_task_until_complete alwaysError 2).calls = 2 :=
  (poller_fetch_error_is_nonterminal alwaysError 2).2 (fun _ => ⟨"boom", rfl⟩)

/-- C7 counterexample: with `max_attempts = 1` and a client whose status
fetch raises, the (single) poll attempt is made, yet the progress fraction
`min(1/1, 0.95) = 0.95` that the claim requires after attempt 1 is never
emitted — the progress-bar trace holds only the initial 0. -/
theorem poll_progress_per_attempt_counterexample :
    (poll_task_until_complete alwaysError 1).calls = 1 ∧
    (poll_task_until_complete alwaysError 1).progressEvents = [0] ∧
    min ((1 : ℚ) / 1) (19/20) ∉
      (poll_task_until_complete alwaysError 1).progressEvents := by
  refine ⟨rfl, rfl, ?_⟩
  intro h
  rw [show (poll_task_until_complete alwaysError 1).progressEvents = [0]
    from rfl] at h
  rw [List.mem_singleton] at h
  norm_num at h

/-- C7 amended: after every poll attempt whose status fetch succeeds, the
poller emits `min(attempt/max_attempts, 0.95)` (attempt counted from 1) as
its next progress event; an attempt whose fetch raises emits no progress
event; and an observer never sees a progress value of 1.0 before the job
reaches the terminal success outcome (every non-final emission is at most
0.95, and an emission of 1.0 can only occur in a run whose outcome is
success). -/
theorem poll_progress_fraction_amended
    (check : Nat → Except String TaskData) (n : Nat) :
    (∀ attempt rem td, check attempt = Except.ok td →
        (pollFrom check n attempt (rem + 1)).progressEvents.head? =
          some (min (((attempt : ℚ) + 1) / (n : ℚ)) (19/20))) ∧
    (∀ attempt rem e, check attempt = Except.error e →
        (pollFrom check n attempt (rem + 1)).progressEvents =
          (pollFrom check n (attempt + 1) rem).progressEvents) ∧
    (∀ q ∈ (poll_task_until_complete check n).progressEvents.dropLast,
        q ≤ 19/20) ∧
    (∀ q ∈ (poll_task_until_complete check n).progressEvents, q = 1 →
        ∃ td, (poll_task_until_complete check n).outcome =
          PollOutcome.success td) := by
  have hsafe := pollFrom_events_safe check n n 0
  refine ⟨?_, ?_, ?_, ?_⟩
  · intro attempt rem td hck
    simp only [pollFrom, hck]
    split_ifs <;> rfl
  · intro attempt rem e hck
    simp [pollFrom, hck]
  · intro q hq
    rw [show (poll_task_until_complete check n).progressEvents =
        0 :: (pollFrom check n 0 n).progressEvents from rfl] at hq
    rcases hl : (pollFrom check n 0 n).progressEvents with _ | ⟨b, l⟩
    · rw [hl] at hq
      simp at hq
    · rw [hl, List.dropLast_cons₂] at hq
      rcases List.mem_cons.mp hq with hq | hq
      · rw [hq]
        norm_num
      · exact hsafe.1 q (by rw [hl]; exact hq)
  · intro q hq hq1
    rw [show (poll_task_until_complete check n).progressEvents =
        0 :: (pollFrom check n 0 n).progressEvents from rfl] at hq
    rcases List.mem_cons.mp hq with hq | hq
    · exact absurd (hq ▸ hq1) (by norm_num)
    · obtain ⟨td, htd⟩ := hsafe.2 q hq hq1
      exact ⟨td, by simpa [poll_task_until_complete] using htd⟩

/-- Witness for `poll_progress_fraction_amended`: at attempt 0 (1-based
attempt 1) of a `waiting` run with `max_attempts = 2` the next emission is
`min(1/2, 0.95)`, and an erroring attempt leaves the emission trace of the
remaining attempts unchanged. -/
theorem poll_progress_fraction_amended_witness :
    (pollFrom alwaysWaiting 2 0 2).progressEvents.head? =
      some (min ((((0 : Nat) : ℚ) + 1) / ((2 : Nat) : ℚ)) (19/20)) ∧
    (pollFrom alwaysError 2 0 2).progressEvents =
      (pollFrom alwaysError 2 1 1).progressEvents :=
  ⟨(poll_progress_fraction_amended alwaysWaiting 2).1 0 1
      { state := "waiting", resultJson := none, failMsg := none } rfl,
   (poll_progress_fraction_amended alwaysError 2).2.1 0 1 "boom" rfl⟩

/-- Fake provider state holding one non-trashed folder named
`AI_Image_Editor_Pro`. -/
def exampleDrive : List DriveFile :=
  [{ id := "fid1", name := "AI_Image_Editor_Pro",
     mimeType := "application/vnd.google-apps.folder", trashed := false,
     parent := none, webViewLink := none, webContentLink := none,
     createdTime := 5 }]

/-- C6: folder resolution is idempotent.  Against a provider state that
already holds a non-trashed folder whose name exactly matches the app folder
name, `create_app_folder` issues zero create calls and returns the id of an
existing matching folder; conversely, whenever a run issues a create call,
no matching folder existed in the searched state. -/
theorem ensure_folder_idempotent (drive : List DriveFile)
    (createResp : Except String (Option String))
    (h : ∃ f ∈ drive, isAppFolderFile f = true) :
    (∃ f ∈ drive, isAppFolderFile f = true ∧
        (create_app_folder (Except.ok (searchAppFolder drive))
          createResp).folderId = some f.id) ∧
    ((create_app_folder (Except.ok (searchAppFolder drive))
        createResp).calls.count ProviderCall.filesCreateFolder = 0) ∧
    (∀ (drive2 : List DriveFile) (c2 : Except String (Option String)),
        (create_app_folder (Except.ok (searchAppFolder drive2))
          c2).calls.count ProviderCall.filesCreateFolder ≠ 0 →
        ¬ ∃ f ∈ drive2, isAppFolderFile f = true) := by
  rcases hfil : drive.filter isAppFolderFile with _ | ⟨f0, fs⟩
  · obtain ⟨f, hf, hp⟩ := h
    have := List.filter_eq_nil_iff.mp hfil f hf
    exact absurd hp this
  · have hmem : f0 ∈ drive.filter isAppFolderFile := by
      rw [hfil]
      exact List.mem_cons_self _ _
    refine ⟨⟨f0, List.mem_of_mem_filter hmem, List.of_mem_filter hmem, ?_⟩,
      ?_, ?_⟩
    · simp [create_app_folder, searchAppFolder, hfil]
    · simp [create_app_folder, searchAppFolder, hfil]
    · intro drive2 c2 hcount hex
      rcases hfil2 : drive2.filter isAppFolderFile with _ | ⟨g0, gs⟩
      · obtain ⟨g, hg, hpg⟩ := hex
        exact absurd hpg (List.filter_eq_nil_iff.mp hfil2 g hg)
      · exact hcount (by simp [create_app_folder, searchAppFolder, hfil2])

/-- Witness for `ensure_folder_idempotent` on `exampleDrive`. -/
theorem ensure_folder_idempotent_witness :
    (∃ f ∈ exampleDrive, isAppFolderFile f = true ∧
        (create_app_folder (Except.ok (searchAppFolder exampleDrive))
          (Except.ok (some "newid"))).folderId = some f.id) ∧
    ((create_app_folder (Except.ok (searchAppFolder exampleDrive))
        (Except.ok (some "newid"))).calls.count
      ProviderCall.filesCreateFolder = 0) ∧
    (∀ (drive2 : List DriveFile) (c2 : Except String (Option String)),
        (create_app_folder (Except.ok (searchAppFolder drive2))
          c2).calls.count ProviderCall.filesCreateFolder ≠ 0 →
        ¬ ∃ f ∈ drive2, isAppFolderFile f = true) :=
  ensure_folder_idempotent exampleDrive (Except.ok (some "newid"))
    (by decide)

theorem resolveFolder_calls_cases (s : Option String)
    (fs : Except String (List DriveFile))
    (fc : Except String (Option String)) :
    (resolveFolder s fs fc).calls = [] ∨
    (resolveFolder s fs fc).calls = [ProviderCall.filesList] ∨
    (resolveFolder s fs fc).calls =
      [ProviderCall.filesList, ProviderCall.filesCreateFolder] := by
  rcases s with _ | fid
  · rcases fs with e | files
    · right; left
      simp [resolveFolder, create_app_folder]
    · rcases files with _ | ⟨f, rest⟩
      · rcases fc with e | id?
        · right; right
          simp [resolveFolder, create_app_folder]
        · right; right
          simp [resolveFolder, create_app_folder]
      · right; left
        simp [resolveFolder, create_app_folder]
  · left
    simp [resolveFolder]

theorem resolveFolder_no_permission_call (s : Option String)
    (fs : Except String (List DriveFile))
    (fc : Except String (Option String)) :
    ProviderCall.permissionsCreate ∉ (resolveFolder s fs fc).calls := by
  rcases resolveFolder_calls_cases s fs fc with h | h | h <;> simp [h]

/-- C1 counterexample: a fully successful upload run (session folder cached,
download succeeds, `files().create` succeeds and returns asset id `A`) issues
exactly the download and the single create call — no permission-grant call
follows the upload, contradicting the claimed second provider call; and when
the create call itself raises, the run returns `None`, carrying no asset
id at all. -/
theorem upload_permission_grant_counterexample :
    (upload_to_gdrive true (some "F") (Except.ok []) (Except.ok none)
        (Except.ok [0])
        (Except.ok { id := some "A", webViewLink := some "https://v",
                     webContentLink := some "https://c" })
        "https://img" "pic.png" (some "T") "now").result.isSome = true ∧
    (upload_to_gdrive true (some "F") (Except.ok []) (Except.ok none)
        (Except.ok [0])
        (Except.ok { id := some "A", webViewLink := some "https://v",
                     webContentLink := some "https://c" })
        "https://img" "pic.png" (some "T") "now").calls =
      [ProviderCall.download, ProviderCall.filesCreateUpload] ∧
    ProviderCall.permissionsCreate ∉
      (upload_to_gdrive true (some "F") (Except.ok []) (Except.ok none)
        (Except.ok [0])
        (Except.ok { id := some "A", webViewLink := some "https://v",
                     webContentLink := some "https://c" })
        "https://img" "pic.png" (some "T") "now").calls ∧
    (upload_to_gdrive true (some "F") (Except.ok []) (Except.ok none)
        (Except.ok [0]) (Except.error "permission denied")
        "https://img" "pic.png" (some "T") "now").result = none := by
  refine ⟨rfl, rfl, ?_, rfl⟩
  decide

/-- C1 amended: `upload_to_gdrive` never issues a permission-grant call; in
a successful run the single `files().create` upload call is the last provider
call made; and when the create call raises after a successful download, the
operation returns `None` (so no asset id is surfaced) and only displays the
error text. -/
theorem upload_single_create_no_permission_grant
    (service : Bool) (sessionFolderId : Option String)
    (folderSearch : Except String (List DriveFile))
    (folderCreate : Except String (Option String))
    (downloadResp : Except String (List Nat))
    (createResp : Except String DriveCreateResponse)
    (image_url file_name : String) (task_id : Option String) (now : String) :
    ProviderCall.permissionsCreate ∉
      (upload_to_gdrive service sessionFolderId folderSearch folderCreate
        downloadResp createResp image_url file_name task_id now).calls ∧
    ((upload_to_gdrive service sessionFolderId folderSearch folderCreate
        downloadResp createResp image_url file_name task_id now).result.isSome →
      (upload_to_gdrive service sessionFolderId folderSearch folderCreate
        downloadResp createResp image_url file_name task_id now).calls.getLast? =
        some ProviderCall.filesCreateUpload) ∧
    (∀ e bytes fid, service = true →
      (resolveFolder sessionFolderId folderSearch folderCreate).folderId =
        some fid →
      downloadResp = Except.ok bytes → createResp = Except.error e →
      (upload_to_gdrive service sessionFolderId folderSearch folderCreate
        downloadResp createResp image_url file_name task_id now).result = none ∧
      ("Error uploading to Google Drive: " ++ e) ∈
        (upload_to_gdrive service sessionFolderId folderSearch folderCreate
          downloadResp createResp image_url file_name task_id now).errorsShown) := by
  have hperm := resolveFolder_no_permission_call sessionFolderId folderSearch
    folderCreate
  cases service with
  | false =>
    refine ⟨by simp [upload_to_gdrive], by simp [upload_to_gdrive], ?_⟩
    intro e bytes fid hsvc
    exact absurd hsvc (by simp)
  | true =>
    rcases hfid : (resolveFolder sessionFolderId folderSearch
        folderCreate).folderId with _ | fid
    · refine ⟨by simp [upload_to_gdrive, hfid, hperm],
        by simp [upload_to_gdrive, hfid], ?_⟩
      intro e bytes fid _ hfid2
      exact absurd hfid2 (by simp)
    · rcases downloadResp with e0 | bytes0
      · refine ⟨?_, by simp [upload_to_gdrive, hfid], ?_⟩
        · intro hmem
          simp only [upload_to_gdrive, hfid] at hmem
          rcases List.mem_append.mp hmem with hmem | hmem
          · exact hperm hmem
          · simp at hmem
        · intro e bytes fid _ _ hdl
          exact absurd hdl (by simp)
      · rcases createResp with e1 | file1
        · refine ⟨?_, by simp [upload_to_gdrive, hfid], ?_⟩
          · intro hmem
            simp only [upload_to_gdrive, hfid] at hmem
            rcases List.mem_append.mp hmem with hmem | hmem
            · exact hperm hmem
            · simp at hmem
          · intro e bytes fid _ _ _ hcr
            have he : e = e1 := by
              have := Except.error.inj hcr
              exact this.symm
            subst he
            constructor
            · simp [upload_to_gdrive, hfid]
            · simp [upload_to_gdrive, hfid]
        · refine ⟨?_, ?_, ?_⟩
          · intro hmem
            simp only [upload_to_gdrive, hfid] at hmem
            rcases List.mem_append.mp hmem with hmem | hmem
            · exact hperm hmem
            · simp at hmem
          · intro _
            simp [upload_to_gdrive, hfid, List.getLast?_append]
          · intro e bytes fid _ _ _ hcr
            exact absurd hcr (by simp)

/-- Witness for `upload_single_create_no_permission_grant`: a run whose
create call raises returns `None` and displays the error. -/
theorem upload_single_create_no_permission_grant_witness :
    (upload_to_gdrive true (some "F") (Except.ok []) (Except.ok none)
      (Except.ok [0]) (Except.error "boom")
      "u" "f.png" none "now").result = none ∧
    ("Error uploading to Google Drive: " ++ "boom") ∈
      (upload_to_gdrive true (some "F") (Except.ok []) (Except.ok none)
        (Except.ok [0]) (Except.error "boom")
        "u" "f.png" none "now").errorsShown :=
  (upload_single_create_no_permission_grant true (some "F") (Except.ok [])
    (Except.ok none) (Except.ok [0]) (Except.error "boom")
    "u" "f.png" none "now").2.2 "boom" [0] "F" rfl rfl rfl rfl

/-- C5 counterexample: two upload runs in which the provider returns the same
asset id `A` but different `webViewLink`/`webContentLink` values produce
records with the same `file_id` and different public links — the stored
public URL is therefore not a function of the asset id alone, and no fixed
local URL template is applied. -/
theorem publicUrl_not_derived_from_assetId_counterexample :
    ((upload_to_gdrive true (some "F") (Except.ok []) (Except.ok none)
        (Except.ok [0])
        (Except.ok { id := some "A", webViewLink := some "https://x",
                     webContentLink := some "https://x2" })
        "u" "f.png" none "t").result.map UploadRecord.file_id =
      (upload_to_gdrive true (some "F") (Except.ok []) (Except.ok none)
        (Except.ok [0])
        (Except.ok { id := some "A", webViewLink := some "https://y",
                     webContentLink := some "https://y2" })
        "u" "f.png" none "t").result.map UploadRecord.file_id) ∧
    ((upload_to_gdrive true (some "F") (Except.ok []) (Except.ok none)
        (Except.ok [0])
        (Except.ok { id := some "A", webViewLink := some "https://x",
                     webContentLink := some "https://x2" })
        "u" "f.png" none "t").result.map UploadRecord.web_link ≠
      (upload_to_gdrive true (some "F") (Except.ok []) (Except.ok none)
        (Except.ok [0])
        (Except.ok { id := some "A", webViewLink := some "https://y",
                     webContentLink := some "https://y2" })
        "u" "f.png" none "t").result.map UploadRecord.web_link) := by
  refine ⟨rfl, ?_⟩
  decide

/-- C5 amended: the public links of a stored record are taken verbatim from
the provider's `files().create` response (`webViewLink`/`webContentLink`
fields), not computed locally from the asset id; the record simply preserves
whatever the provider returned alongside the id, the caller-supplied names
and the passed-in timestamp. -/
theorem upload_public_links_verbatim_from_provider
    (service : Bool) (sessionFolderId : Option String)
    (folderSearch : Except String (List DriveFile))
    (folderCreate : Except String (Option String))
    (downloadResp : Except String (List Nat)) (file : DriveCreateResponse)
    (image_url file_name : String) (task_id : Option String) (now : String)
    (rec : UploadRecord)
    (h : (upload_to_gdrive service sessionFolderId folderSearch folderCreate
        downloadResp (Except.ok file) image_url file_name task_id
        now).result = some rec) :
    rec.file_id = file.id ∧ rec.web_link = file.webViewLink ∧
    rec.content_link = file.webContentLink ∧ rec.file_name = file_name ∧
    rec.uploaded_at = now ∧ rec.original_url = image_url ∧
    rec.task_id = task_id := by
  cases service with
  | false => simp [upload_to_gdrive] at h
  | true =>
    rcases hfid : (resolveFolder sessionFolderId folderSearch
        folderCreate).folderId with _ | fid
    · simp [upload_to_gdrive, hfid] at h
    · rcases downloadResp with e0 | bytes0
      · simp [upload_to_gdrive, hfid] at h
      · have hrec : rec =
            { file_id := file.id, file_name := file_name,
              web_link := file.webViewLink,
              content_link := file.webContentLink,
              uploaded_at := now, task_id := task_id,
              original_url := image_url } := by
          have h2 := h
          simp only [upload_to_gdrive, hfid] at h2
          exact (Option.some.inj h2).symm
        rw [hrec]
        exact ⟨rfl, rfl, rfl, rfl, rfl, rfl, rfl⟩

/-- Witness for `upload_public_links_verbatim_from_provider` at a concrete
successful run. -/
theorem upload_public_links_verbatim_from_provider_witness :
    ({ file_id := some "A", file_name := "f.png",
       web_link := some "https://v", content_link := some "https://c",
       uploaded_at := "now", task_id := some "T",
       original_url := "u" } : UploadRecord).web_link =
      ({ id := some "A", webViewLink := some "https://v",
         webContentLink := some "https://c" } : DriveCreateResponse).webViewLink ∧
    ({ file_id := some "A", file_name := "f.png",
       web_link := some "https://v", content_link := some "https://c",
       uploaded_at := "now", task_id := some "T",
       original_url := "u" } : UploadRecord).file_id =
      ({ id := some "A", webViewLink := some "https://v",
         webContentLink := some "https://c" } : DriveCreateResponse).id :=
  ⟨(upload_public_links_verbatim_from_provider true (some "F")
      (Except.ok []) (Except.ok none) (Except.ok [0])
      { id := some "A", webViewLink := some "https://v",
        webContentLink := some "https://c" }
      "u" "f.png" (some "T") "now" _ rfl).2.1,
   (upload_public_links_verbatim_from_provider true (some "F")
      (Except.ok []) (Except.ok none) (Except.ok [0])
      { id := some "A", webViewLink := some "https://v",
        webContentLink := some "https://c" }
      "u" "f.png" (some "T") "now" _ rfl).1⟩

theorem resolveFolder_count_eq_zero (s : Option String)
    (fs : Except String (List DriveFile))
    (fc : Except String (Option String)) (c : ProviderCall)
    (h1 : c ≠ ProviderCall.filesList)
    (h2 : c ≠ ProviderCall.filesCreateFolder) :
    (resolveFolder s fs fc).calls.count c = 0 := by
  rcases resolveFolder_calls_cases s fs fc with h | h | h <;>
    simp [h, List.count_cons, h1, h2]

theorem count_append_le_one (l : List ProviderCall) (c : ProviderCall)
    (suffix : List ProviderCall) (h0 : l.count c = 0)
    (h1 : suffix.count c ≤ 1) : (l ++ suffix).count c ≤ 1 := by
  rw [List.count_append, h0]
  simpa using h1

/-- C8 counterexample: two delete runs failing with different causes return
the identical bare `False`, a failing list run returns the bare empty list,
and a failing upload run returns the bare `None` — the value returned to the
caller does not carry the error cause (the cause reaches only the `st.error`
UI display), refuting the claim that every storage failure is surfaced to
the caller verbatim as a typed result. -/
theorem storage_error_swallowed_counterexample :
    (delete_gdrive_file true (Except.error "quota exceeded")).result = false ∧
    (delete_gdrive_file true (Except.error "network unreachable")).result =
      false ∧
    (delete_gdrive_file true (Except.error "quota exceeded")).result =
      (delete_gdrive_file true (Except.error "network unreachable")).result ∧
    (list_gdrive_images true (some "F") none (Except.ok []) (Except.ok none)
      [] (some "boom")).files = [] ∧
    (upload_to_gdrive true (some "F") (Except.ok []) (Except.ok none)
      (Except.error "boom")
      (Except.ok { id := none, webViewLink := none, webContentLink := none })
      "u" "f.png" none "t").result = none :=
  ⟨rfl, rfl, rfl, rfl, rfl⟩

/-- C8 amended: each failing storage operation is attempted exactly once —
the delete, image-list, download and upload-create calls each occur at most
once per invocation, with no retry — and on failure the operation displays
the cause verbatim through the UI error channel while returning the bare
sentinel (`False` for delete, `[]` for list, `None` for upload) to the
caller. -/
theorem storage_ops_single_attempt_errors_display_only
    (service : Bool) (deleteResp : Except String Unit)
    (folderIdArg sessionFolderId : Option String)
    (folderSearch : Except String (List DriveFile))
    (folderCreate : Except String (Option String))
    (drive : List DriveFile) (listExn : Option String)
    (downloadResp : Except String (List Nat))
    (createResp : Except String DriveCreateResponse)
    (image_url file_name : String) (task_id : Option String) (now : String) :
    ((delete_gdrive_file service deleteResp).calls.count
        ProviderCall.filesDelete ≤ 1) ∧
    (∀ e, deleteResp = Except.error e → service = true →
        (delete_gdrive_file service deleteResp).result = false ∧
        ("Error deleting file: " ++ e) ∈
          (delete_gdrive_file service deleteResp).errorsShown) ∧
    ((list_gdrive_images service folderIdArg sessionFolderId folderSearch
        folderCreate drive listExn).calls.count
        ProviderCall.filesListImages ≤ 1) ∧
    (∀ e, listExn = some e → service = true →
        (list_gdrive_images service folderIdArg sessionFolderId folderSearch
          folderCreate drive listExn).files = [] ∧
        ("Error listing images: " ++ e) ∈
          (list_gdrive_images service folderIdArg sessionFolderId folderSearch
            folderCreate drive listExn).errorsShown) ∧
    ((upload_to_gdrive service sessionFolderId folderSearch folderCreate
        downloadResp createResp image_url file_name task_id now).calls.count
        ProviderCall.download ≤ 1) ∧
    ((upload_to_gdrive service sessionFolderId folderSearch folderCreate
        downloadResp createResp image_url file_name task_id now).calls.count
        ProviderCall.filesCreateUpload ≤ 1) := by
  have hdl := resolveFolder_count_eq_zero sessionFolderId folderSearch
    folderCreate ProviderCall.download (by decide) (by decide)
  have hcu := resolveFolder_count_eq_zero sessionFolderId folderSearch
    folderCreate ProviderCall.filesCreateUpload (by decide) (by decide)
  have hli := resolveFolder_count_eq_zero sessionFolderId folderSearch
    folderCreate ProviderCall.filesListImages (by decide) (by decide)
  refine ⟨?_, ?_, ?_, ?_, ?_, ?_⟩
  · cases service with
    | false => simp [delete_gdrive_file]
    | true =>
      cases deleteResp with
      | ok u => simp [delete_gdrive_file]
      | error e => simp [delete_gdrive_file]
  · intro e hde hsvc
    subst hsvc
    subst hde
    simp [delete_gdrive_file]
  · cases service with
    | false => simp [list_gdrive_images]
    | true =>
      cases listExn with
      | none =>
        cases folderIdArg with
        | none =>
          simp only [list_gdrive_images]
          exact count_append_le_one _ _ _ hli (by decide)
        | some fid => simp [list_gdrive_images]
      | some e =>
        cases folderIdArg with
        | none =>
          simp only [list_gdrive_images]
          exact count_append_le_one _ _ _ hli (by decide)
        | some fid => simp [list_gdrive_images]
  · intro e hle hsvc
    subst hsvc
    subst hle
    cases folderIdArg with
    | none => simp [list_gdrive_images]
    | some fid => simp [list_gdrive_images]
  · cases service with
    | false => simp [upload_to_gdrive]
    | true =>
      rcases hfid : (resolveFolder sessionFolderId folderSearch
          folderCreate).folderId with _ | fid
      · simp only [upload_to_gdrive, hfid]
        simp [hdl]
      · rcases downloadResp with e0 | bytes0
        · simp only [upload_to_gdrive, hfid]
          exact count_append_le_one _ _ _ hdl (by decide)
        · rcases createResp with e1 | file1
          · simp only [upload_to_gdrive, hfid]
            exact count_append_le_one _ _ _ hdl (by decide)
          · simp only [upload_to_gdrive, hfid]
            exact count_append_le_one _ _ _ hdl (by decide)
  · cases service with
    | false => simp [upload_to_gdrive]
    | true =>
      rcases hfid : (resolveFolder sessionFolderId folderSearch
          folderCreate).folderId with _ | fid
      · simp only [upload_to_gdrive, hfid]
        simp [hcu]
      · rcases downloadResp with e0 | bytes0
        · simp only [upload_to_gdrive, hfid]
          exact count_append_le_one _ _ _ hcu (by decide)
        · rcases createResp with e1 | file1
          · simp only [upload_to_gdrive, hfid]
            exact count_append_le_one _ _ _ hcu (by decide)
          · simp only [upload_to_gdrive, hfid]
            exact count_append_le_one _ _ _ hcu (by decide)

/-- Witness for `storage_ops_single_attempt_errors_display_only`: a failing
delete run returns `False` and displays the cause. -/
theorem storage_ops_single_attempt_errors_display_only_witness :
    (delete_gdrive_file true (Except.error "boom")).result = false ∧
    ("Error deleting file: " ++ "boom") ∈
      (delete_gdrive_file true (Except.error "boom")).errorsShown :=
  (storage_ops_single_attempt_errors_display_only true (Except.error "boom")
    none none (Except.ok []) (Except.ok none) [] none (Except.ok [])
    (Except.ok { id := none, webViewLink := none, webContentLink := none })
    "u" "f" none "t").2.1 "boom" rfl rfl

/-- C10: one invocation of `list_gdrive_images` issues at most one image-list
call with a fixed page size of 100 and fetches no further page, so it
returns at most 100 files regardless of the provider state — when the
container holds `k` matching image files the page returned by the provider
has exactly `min 100 k` entries. -/
theorem list_images_single_page_at_most_100
    (service : Bool) (folderIdArg sessionFolderId : Option String)
    (folderSearch : Except String (List DriveFile))
    (folderCreate : Except String (Option String))
    (drive : List DriveFile) (listExn : Option String) :
    (list_gdrive_images service folderIdArg sessionFolderId folderSearch
        folderCreate drive listExn).files.length ≤ 100 ∧
    ((list_gdrive_images service folderIdArg sessionFolderId folderSearch
        folderCreate drive listExn).calls.count
        ProviderCall.filesListImages ≤ 1) ∧
    (∀ folderId : String, (driveListImages drive folderId 100).length =
        min 100 (drive.filter (imageQuery folderId)).length) := by
  have hli := resolveFolder_count_eq_zero sessionFolderId folderSearch
    folderCreate ProviderCall.filesListImages (by decide) (by decide)
  refine ⟨?_, ?_, ?_⟩
  · cases service with
    | false => simp [list_gdrive_images]
    | true =>
      cases listExn with
      | none =>
        cases folderIdArg with
        | none =>
          simp only [list_gdrive_images, driveListImages]
          exact List.length_take_le _ _
        | some fid =>
          simp only [list_gdrive_images, driveListImages]
          exact List.length_take_le _ _
      | some e =>
        cases folderIdArg with
        | none => simp [list_gdrive_images]
        | some fid => simp [list_gdrive_images]
  · cases service with
    | false => simp [list_gdrive_images]
    | true =>
      cases listExn with
      | none =>
        cases folderIdArg with
        | none =>
          simp only [list_gdrive_images]
          exact count_append_le_one _ _ _ hli (by decide)
        | some fid => simp [list_gdrive_images]
      | some e =>
        cases folderIdArg with
        | none =>
          simp only [list_gdrive_images]
          exact count_append_le_one _ _ _ hli (by decide)
        | some fid => simp [list_gdrive_images]
  · intro folderId
    simp [driveListImages, List.length_take, List.length_mergeSort]

/-- C4 counterexample: an HTTP-200 response whose embedded code is 200 but
which carries no `data` object (a combination the declared response type
`{code, msg?, data?}` allows) does not yield a job id — the `KeyError`
raised by `data["data"]` is caught and returned as a failure — so transport
status 200 together with embedded code 200 is not sufficient for success as
the claim states. -/
theorem create_task_200_200_not_sufficient_counterexample :
    create_task (Transport.resp 200
      { code := some 200, msg := none, data := none } "") =
      Except.error "KeyError: data" ∧
    (create_task (Transport.resp 200
      { code := some 200, msg := none, data := none } "")).toOption = none :=
  ⟨rfl, rfl⟩

/-- C4 amended: `create_task` returns a job id exactly when the transport
status is 200, the embedded code is 200 AND the response carries
`data.taskId`; every other combination yields a single failure whose reason
is the provider `msg` verbatim when the embedded code is unsuccessful and a
`msg` is present (with the fixed default `Unknown error` when absent), the
`HTTP {status}: {text}` transport text for a non-200 status, and the
stringified exception for a transport error or a missing key. -/
theorem create_task_success_characterization (t : Transport) :
    (∀ tid, create_task t = Except.ok tid ↔
        ∃ body text, t = Transport.resp 200 body text ∧
          body.code = some 200 ∧
          ∃ d, body.data = some d ∧ d.taskId = some tid) ∧
    (∀ e, t = Transport.exn e → create_task t = Except.error e) ∧
    (∀ status body text, t = Transport.resp status body text →
        status ≠ 200 →
        create_task t = Except.error
          ("HTTP " ++ toString status ++ ": " ++ text)) ∧
    (∀ body text m, t = Transport.resp 200 body text →
        body.code ≠ some 200 → body.msg = some m →
        create_task t = Except.error m) ∧
    (∀ body text, t = Transport.resp 200 body text →
        body.code ≠ some 200 → body.msg = none →
        create_task t = Except.error "Unknown error") := by
  refine ⟨?_, ?_, ?_, ?_, ?_⟩
  · intro tid
    constructor
    · intro hok
      cases t with
      | exn e => simp [create_task] at hok
      | resp status body text =>
        by_cases hst : status = 200
        · subst hst
          by_cases hcode : body.code = some 200
          · rcases hdata : body.data with _ | d
            · simp [create_task, hcode, hdata] at hok
            · rcases htid : d.taskId with _ | tid0
              · simp [create_task, hcode, hdata, htid] at hok
              · have : tid0 = tid := by
                  simpa [create_task, hcode, hdata, htid] using hok
                exact ⟨body, text, rfl, hcode, d, hdata, by rw [htid, this]⟩
          · simp [create_task, hcode] at hok
        · simp [create_task, hst] at hok
    · rintro ⟨body, text, rfl, hcode, d, hdata, htid⟩
      simp [create_task, hcode, hdata, htid]
  · rintro e rfl
    rfl
  · rintro status body text rfl hst
    simp [create_task, hst]
  · rintro body text m rfl hcode hmsg
    simp [create_task, hcode, hmsg]
  · rintro body text rfl hcode hmsg
    simp [create_task, hcode, hmsg]

/-- Witness for `create_task_success_characterization`: a well-formed
200/200 response with a task id succeeds with that id, and an embedded
error code surfaces the provider message verbatim. -/
theorem create_task_success_characterization_witness :
    create_task (Transport.resp 200
      { code := some 200, msg := none,
        data := some { taskId := some "abc123" } } "") =
      Except.ok "abc123" ∧
    create_task (Transport.resp 200
      { code := some 500, msg := some "quota exhausted", data := none } "") =
      Except.error "quota exhausted" :=
  ⟨((create_task_success_characterization (Transport.resp 200
      { code := some 200, msg := none,
        data := some { taskId := some "abc123" } } "")).1 "abc123").mpr
      ⟨_, _, rfl, rfl, _, rfl, rfl⟩,
   (create_task_success_characterization (Transport.resp 200
      { code := some 500, msg := some "quota exhausted",
        data := none } "")).2.2.2.1 _ "" "quota exhausted" rfl
      (by simp) rfl⟩

theorem updateStatus_mem (hist : List TaskRecord) (tid s : String)
    (h : ∃ r ∈ hist, r.task_id = tid) :
    ∃ r2 ∈ updateStatus hist tid s, r2.task_id = tid ∧ r2.status = s := by
  induction hist with
  | nil =>
    obtain ⟨r, hr, _⟩ := h
    exact absurd hr (List.not_mem_nil r)
  | cons a rest ih =>
    by_cases ha : a.task_id = tid
    · refine ⟨{ a with status := s }, ?_, ha, rfl⟩
      simp [updateStatus, ha]
    · obtain ⟨r, hr, hrid⟩ := h
      rcases List.mem_cons.mp hr with rfl | hr2
      · exact absurd hrid ha
      · obtain ⟨r2, hr2m, hr2id, hr2s⟩ := ih ⟨r, hr2, hrid⟩
        refine ⟨r2, ?_, hr2id, hr2s⟩
        simp only [updateStatus, if_neg ha]
        exact List.mem_cons_of_mem a hr2m

/-- C2 counterexample: a poll that reports success with a task record
carrying no `resultJson` (allowed by the status API, whose `resultJson` is
optional; the handler then decodes the default empty object and obtains no
urls) still marks the history record `"success"` while the result-URL list
is empty — refuting `status == success iff resultUrls nonempty`. -/
theorem job_success_iff_nonempty_urls_counterexample :
    (seeddream_after_poll
        [{ task_id := "T", model := "bytedance/seedream-v4-edit",
           timestamp := "ts", status := "waiting", prompt := "p" }] "T"
        (PollOutcome.success
          { state := "success", resultJson := none, failMsg := none })
        (fun _ => [])).history =
      [{ task_id := "T", model := "bytedance/seedream-v4-edit",
         timestamp := "ts", status := "success", prompt := "p" }] ∧
    (seeddream_after_poll
        [{ task_id := "T", model := "bytedance/seedream-v4-edit",
           timestamp := "ts", status := "waiting", prompt := "p" }] "T"
        (PollOutcome.success
          { state := "success", resultJson := none, failMsg := none })
        (fun _ => [])).resultUrls = [] :=
  ⟨rfl, rfl⟩

/-- C2 amended: after the polling flow, the first history record matching
the task id is marked `"success"` exactly when the poll outcome is success
— regardless of whether the parsed result-URL list is empty — and `"fail"`
otherwise, with provider failure and timeout mapped to the same `"fail"`
status and no result urls parsed; the task record has no failure-reason
field (the error text is only displayed, never recorded). -/
theorem job_status_reflects_poll_outcome
    (hist : List TaskRecord) (tid : String) (poll : PollOutcome)
    (parseUrls : String → List String)
    (h : ∃ r ∈ hist, r.task_id = tid) :
    ((∃ td, poll = PollOutcome.success td) →
        ∃ r2 ∈ (seeddream_after_poll hist tid poll parseUrls).history,
          r2.task_id = tid ∧ r2.status = "success") ∧
    ((∀ td, poll ≠ PollOutcome.success td) →
        (∃ r2 ∈ (seeddream_after_poll hist tid poll parseUrls).history,
          r2.task_id = tid ∧ r2.status = "fail") ∧
        (seeddream_after_poll hist tid poll parseUrls).resultUrls = []) ∧
    (∀ e td, seeddream_after_poll hist tid PollOutcome.timedOut parseUrls =
        seeddream_after_poll hist tid (PollOutcome.failed e td) parseUrls) := by
  refine ⟨?_, ?_, ?_⟩
  · rintro ⟨td, rfl⟩
    simpa [seeddream_after_poll] using updateStatus_mem hist tid "success" h
  · intro hns
    cases poll with
    | success td => exact absurd rfl (hns td)
    | failed e td =>
      exact ⟨by simpa [seeddream_after_poll] using
        updateStatus_mem hist tid "fail" h, rfl⟩
    | timedOut =>
      exact ⟨by simpa [seeddream_after_poll] using
        updateStatus_mem hist tid "fail" h, rfl⟩
  · intro e td
    rfl

/-- Witness for `job_status_reflects_poll_outcome` on a one-record history
with a timed-out poll. -/
theorem job_status_reflects_poll_outcome_witness :
    (∃ r2 ∈ (seeddream_after_poll
        [{ task_id := "T", model := "m", timestamp := "ts",
           status := "waiting", prompt := "p" }] "T"
        PollOutcome.timedOut (fun _ => [])).history,
      r2.task_id = "T" ∧ r2.status = "fail") ∧
    (seeddream_after_poll
        [{ task_id := "T", model := "m", timestamp := "ts",
           status := "waiting", prompt := "p" }] "T"
        PollOutcome.timedOut (fun _ => [])).resultUrls = [] :=
  (job_status_reflects_poll_outcome
    [{ task_id := "T", model := "m", timestamp := "ts",
       status := "waiting", prompt := "p" }] "T"
    PollOutcome.timedOut (fun _ => [])
    ⟨{ task_id := "T", model := "m", timestamp := "ts",
       status := "waiting", prompt := "p" }, by simp, rfl⟩).2.1
    (fun td h => PollOutcome.noConfusion h)

end ImageApp
